import Mathlib

/-!
Verification development for the `hammock` schema-validation engine
(`hammock/model.py`).  The Python classes are shallowly embedded:

* Python runtime values (the inputs and outputs of `validate`) become the
  inductive type `Value`; Python `None` is `Value.none`, Python floats are
  modelled as exact rationals (`Rat`), `datetime` values are identified with
  their (rational) UTC timestamp, and instances of an entity class are
  `Value.inst eid` where `eid` is the identity of the class.
* Raised exceptions become `Except` errors.  `ValidationError` (and its
  subclass `CompoundValidationError`) are the `PyErr.validation` family,
  which `Compound._validate`'s `except ValidationError` clause catches;
  every other exception is `PyErr.exception` and propagates.
* Each `Field` subclass becomes a constructor of the inductive `F`, carrying
  the `required`/`default` configuration of the `Field` base class plus its
  own configuration.  `validate` dispatches exactly as the Python method
  resolution does: `ListOf` overrides `validate` wholesale, `Compound`
  overrides it to thread `enforce_required`, and every other field uses
  `Field.validate` (absent-value handling) followed by its `_validate`.
* Library functions used by the code (`re.search`, `timelib.strtodatetime`,
  `dateutil.parser.parse`, `datetime.strptime`) are modelled as opaque-in-the
  -mathematical-sense function parameters stored in the field configuration;
  Python's `float()` builtin is modelled by an explicit parser `pyFloat`.

`Model` / `Entity` reference resolution (`Model.check_references`) is
embedded separately on a first-order graph of entities (`Ent`, `Ref`).
-/

/-- Python runtime values, as far as the validation engine inspects them.
`none` is Python `None` (also the "absent" sentinel), `float` is an exact
model of a Python float, `datetime` is a `datetime.datetime` identified with
its timestamp, `inst eid` is an instance of the entity class with identity
`eid`, and `tuple`/`list` are kept distinct because `isinstance(x, list)`
and `isinstance(x, (list, tuple))` distinguish them. -/
inductive Value where
  | none : Value
  | str : String → Value
  | int : Int → Value
  | bool : Bool → Value
  | float : Rat → Value
  | datetime : Rat → Value
  | list : List Value → Value
  | tuple : List Value → Value
  | dict : List (String × Value) → Value
  | inst : Nat → Value

/-- Whether a value is Python `None` (the absent sentinel). -/
def Value.isNone : Value → Bool
  | Value.none => true
  | _ => false

/-- Whether a value is a Python `list` (tuples are not lists). -/
def Value.isList : Value → Bool
  | Value.list _ => true
  | _ => false

/-- The payload of a raised `ValidationError`: either a plain message or, for
`CompoundValidationError`, the mapping from field name to that field's
error. -/
inductive VErr where
  | msg : String → VErr
  | compound : List (String × VErr) → VErr

/-- A raised Python exception: `validation` covers `ValidationError` and its
subclasses (what `except ValidationError` catches), `exception` is any other
exception (`Exception`, `TypeError`, ...), which such a clause lets
propagate. -/
inductive PyErr where
  | validation : VErr → PyErr
  | exception : String → PyErr

/-- Result of Python's `float(x)` on a non-string, non-numeric argument is a
`TypeError`; on an unparsable string it is a `ValueError`.  The distinction
matters because `BoundingBox._validate` catches only `ValueError`. -/
inductive FloatErr where
  | valueError : FloatErr
  | typeError : FloatErr

/-- Model of Python's `str.strip()`: drop leading and trailing whitespace. -/
def stripChars (cs : List Char) : List Char :=
  (((cs.dropWhile Char.isWhitespace).reverse).dropWhile Char.isWhitespace).reverse

/-- Model of Python's `str.split(sep)` for a one-character separator: split
at every occurrence, keeping empty pieces. -/
def splitComma : List Char → List (List Char)
  | [] => [[]]
  | c :: cs =>
    let r := splitComma cs
    if c = ',' then [] :: r
    else
      match r with
      | [] => [[c]]
      | h :: t => (c :: h) :: t

/-- Model of Python's `str.lower()` (ASCII case folding suffices here). -/
def pyLower (s : String) : String := String.mk (s.data.map Char.toLower)

/-- Digits of a decimal literal to a natural number. -/
def digitsToNat (cs : List Char) : Nat :=
  cs.foldl (fun n c => n * 10 + (c.toNat - 48)) 0

/-- Whether a character list is a nonempty run of decimal digits. -/
def isDigitRun (cs : List Char) : Bool :=
  !cs.isEmpty && cs.all Char.isDigit

/-- Split a character list at the first occurrence of a decimal point. -/
def splitPoint : List Char → (List Char × Option (List Char))
  | [] => ([], Option.none)
  | c :: cs =>
    if c = '.' then ([], Option.some cs)
    else
      let (a, b) := splitPoint cs
      (c :: a, b)

/-- Split a character list at the first occurrence of an exponent marker. -/
def splitExp : List Char → (List Char × Option (List Char))
  | [] => ([], Option.none)
  | c :: cs =>
    if c = 'e' ∨ c = 'E' then ([], Option.some cs)
    else
      let (a, b) := splitExp cs
      (c :: a, b)

/-- Optional leading sign of a numeric literal. -/
def takeSign : List Char → (Int × List Char)
  | '+' :: cs => (1, cs)
  | '-' :: cs => (-1, cs)
  | cs => (1, cs)

/-- Parse the mantissa `digits[.digits]` of a float literal as a rational,
requiring at least one digit overall. -/
def parseMantissa (cs : List Char) : Option Rat :=
  let (ip, fp) := splitPoint cs
  match fp with
  | Option.none =>
    if isDigitRun ip then Option.some ((digitsToNat ip : Int) : Rat) else Option.none
  | Option.some fr =>
    if (ip.all Char.isDigit) && (fr.all Char.isDigit) && (!ip.isEmpty || !fr.isEmpty) then
      Option.some (((digitsToNat ip : Int) : Rat) +
        ((digitsToNat fr : Int) : Rat) / ((10 : Rat) ^ fr.length))
    else Option.none

/-- Model of Python's `float(s)` on strings: optional sign, decimal mantissa,
optional exponent, surrounding whitespace stripped.  (The special spellings
`inf`/`nan` are not modelled; every use below feeds the result to a range
check that rejects them just as the real code does.) -/
def pyFloat (s : String) : Option Rat :=
  let cs := stripChars s.data
  let (sign, cs) := takeSign cs
  let (mant, ex) := splitExp cs
  match parseMantissa mant with
  | Option.none => Option.none
  | Option.some m =>
    match ex with
    | Option.none => Option.some ((sign : Rat) * m)
    | Option.some ecs =>
      let (esign, ecs) := takeSign ecs
      if isDigitRun ecs then
        Option.some ((sign : Rat) * m * ((10 : Rat) ^ (esign * (digitsToNat ecs : Int))))
      else Option.none

/-- Model of Python's `float(x)` builtin on an arbitrary value. -/
def pyFloatConv : Value → Except FloatErr Rat
  | Value.str s =>
    match pyFloat s with
    | Option.some q => Except.ok q
    | Option.none => Except.error FloatErr.valueError
  | Value.int i => Except.ok (i : Rat)
  | Value.bool b => Except.ok (if b then 1 else 0)
  | Value.float q => Except.ok q
  | _ => Except.error FloatErr.typeError

/-- Configuration of a `DateTime` field.  `strtodatetime` and `parsedate`
model the module-level `timelib.strtodatetime` / `dateutil.parser.parse`
bindings: `Option.none` means the import failed at module load; a parser
returns `Option.none` when the library call would raise.  `strptime` models
`datetime.strptime` (format, then input) and is always present. -/
structure DateTimeCfg where
  default_format : String
  use_timelib : Bool
  use_dateutil : Bool
  strtodatetime : Option (String → Option Rat)
  parsedate : Option (String → Option Rat)
  strptime : String → String → Option Rat

/-- The `Field` subclasses of `hammock/model.py` that the claims exercise.
Every constructor carries the base-class configuration (`required`,
`default`) first.  `text`'s `regex` models the compiled `re.search` check;
`one`/`many` carry the `entity` slot (`Option Nat`, the resolved entity
class identity) and `entity_name`. -/
inductive F where
  | text (required : Bool) (dflt : Value) (minlength maxlength : Option Nat)
      (regex : Option (String → Bool)) : F
  | boolean (required : Bool) (dflt : Value) : F
  | boundingBox (required : Bool) (dflt : Value) : F
  | dateTime (required : Bool) (dflt : Value) (cfg : DateTimeCfg) : F
  | anything (required : Bool) (dflt : Value) : F
  | one (required : Bool) (dflt : Value) (entity : Option Nat) (entity_name : String) : F
  | many (required : Bool) (dflt : Value) (entity : Option Nat) (entity_name : String) : F
  | listOf (required : Bool) (dflt : Value) (field : F) : F
  | compound (required : Bool) (dflt : Value) (fields : List (String × F)) : F

/-- The `required` attribute set by `Field.__init__`. -/
def F.required : F → Bool
  | F.text r _ _ _ _ => r
  | F.boolean r _ => r
  | F.boundingBox r _ => r
  | F.dateTime r _ _ => r
  | F.anything r _ => r
  | F.one r _ _ _ => r
  | F.many r _ _ _ => r
  | F.listOf r _ _ => r
  | F.compound r _ _ => r

/-- The `default` attribute set by `Field.__init__`. -/
def F.dflt : F → Value
  | F.text _ d _ _ _ => d
  | F.boolean _ d => d
  | F.boundingBox _ d => d
  | F.dateTime _ d _ => d
  | F.anything _ d => d
  | F.one _ d _ _ => d
  | F.many _ d _ _ => d
  | F.listOf _ d _ => d
  | F.compound _ d _ => d

/-- `Field.validate`'s absent-input branch: `required` fields fail, others
return the configured default. -/
def requiredOrDefault (req : Bool) (d : Value) : Except PyErr Value :=
  if req then Except.error (PyErr.validation (VErr.msg "This field is required."))
  else Except.ok d

/-- `Text._validate`. -/
def textValidate (req : Bool) (minlength maxlength : Option Nat)
    (regex : Option (String → Bool)) (v : Value) : Except PyErr Value :=
  match v with
  | Value.str s =>
    if req && s.length == 0 then
      Except.error (PyErr.validation (VErr.msg "Expected some text."))
    else if (match minlength with
             | Option.some m => decide (s.length < m)
             | Option.none => false) then
      Except.error (PyErr.validation (VErr.msg "This text is too short."))
    else if (match maxlength with
             | Option.some m => decide (s.length > m)
             | Option.none => false) then
      Except.error (PyErr.validation (VErr.msg "This text is too long."))
    else if (match regex with
             | Option.some rx => !rx s
             | Option.none => false) then
      Except.error (PyErr.validation (VErr.msg "Does not match regex."))
    else Except.ok (Value.str s)
  | _ => Except.error (PyErr.validation (VErr.msg "Expected some text."))

/-- `Boolean._validate`.  In Python `bool` is a subclass of `int`, so native
booleans reach the `isinstance(value, int)` branch and coerce through their
numeric value, which passes them through unchanged. -/
def boolValidate (v : Value) : Except PyErr Value :=
  match v with
  | Value.str s =>
    let l := pyLower s
    if l == "true" || l == "1" || l == "yes" then Except.ok (Value.bool true)
    else if l == "false" || l == "0" || l == "no" then Except.ok (Value.bool false)
    else Except.error (PyErr.validation (VErr.msg "Not a boolean"))
  | Value.int i =>
    if i == 1 then Except.ok (Value.bool true)
    else if i == 0 then Except.ok (Value.bool false)
    else Except.error (PyErr.validation (VErr.msg "Not a boolean"))
  | Value.bool b => Except.ok (Value.bool b)
  | _ => Except.error (PyErr.validation (VErr.msg "Not a boolean"))

/-- Step 1 of `BoundingBox._validate`: a list or tuple is taken as-is; a
string is split on commas with each piece stripped; anything else raises. -/
def bboxElems (v : Value) : Except PyErr (List Value) :=
  match v with
  | Value.list vs => Except.ok vs
  | Value.tuple vs => Except.ok vs
  | Value.str s =>
    Except.ok ((splitComma s.data).map (fun cs => Value.str (String.mk (stripChars cs))))
  | _ => Except.error (PyErr.validation
      (VErr.msg "Expected a comma-separated list of values or a list or tuple object."))

/-- The list comprehension `[float(v) for v in value]`: the first failing
conversion aborts with its error. -/
def convertFloats : List Value → Except FloatErr (List Rat)
  | [] => Except.ok []
  | v :: vs =>
    match pyFloatConv v with
    | Except.error e => Except.error e
    | Except.ok q =>
      match convertFloats vs with
      | Except.error e => Except.error e
      | Except.ok qs => Except.ok (q :: qs)

/-- `BoundingBox._validate`.  A `ValueError` from `float()` is caught and
reported as the out-of-range message; a `TypeError` is not caught and
propagates as a plain exception. -/
def bboxValidate (v : Value) : Except PyErr Value :=
  match bboxElems v with
  | Except.error e => Except.error e
  | Except.ok elems =>
    if elems.length != 4 then
      Except.error (PyErr.validation (VErr.msg "A bounding box must have 4 values"))
    else
      match convertFloats elems with
      | Except.error FloatErr.valueError =>
        Except.error (PyErr.validation
          (VErr.msg "All values must be numbers in the range -180.0 to 180.0"))
      | Except.error FloatErr.typeError =>
        Except.error (PyErr.exception "float() argument must be a string or a number")
      | Except.ok qs =>
        if qs.all (fun q => decide (-180 ≤ q) && decide (q ≤ 180)) then
          Except.ok (Value.tuple (qs.map Value.float))
        else
          Except.error (PyErr.validation
            (VErr.msg "All values must be numbers in the range -180.0 to 180.0"))

/-- The string branch of `DateTime._validate`: the first parser that is both
enabled and importable is committed to — if its call raises, the whole
validation fails at once; later parsers are reached only when earlier ones
are disabled or unavailable.  `datetime.strptime` is the final fallback. -/
def dtValidateStr (cfg : DateTimeCfg) (s : String) : Except PyErr Value :=
  match cfg.use_timelib, cfg.strtodatetime with
  | true, Option.some p =>
    match p s with
    | Option.some t => Except.ok (Value.datetime t)
    | Option.none => Except.error (PyErr.validation (VErr.msg "Unrecognized date format"))
  | _, _ =>
    match cfg.use_dateutil, cfg.parsedate with
    | true, Option.some p =>
      match p s with
      | Option.some t => Except.ok (Value.datetime t)
      | Option.none => Except.error (PyErr.validation (VErr.msg "Unrecognized date format"))
    | _, _ =>
      match cfg.strptime cfg.default_format s with
      | Option.some t => Except.ok (Value.datetime t)
      | Option.none => Except.error (PyErr.validation (VErr.msg "Unrecognized date format"))

/-- `DateTime._validate`.  `datetime` instances pass through; ints and
floats (including Python booleans, which are ints) go through
`datetime.utcfromtimestamp`, modelled as the identity on timestamps; strings
go to the parser chain; everything else raises the (verbatim, including the
source's typo) "Note a date or time" error. -/
def dtValidate (cfg : DateTimeCfg) (v : Value) : Except PyErr Value :=
  match v with
  | Value.datetime t => Except.ok (Value.datetime t)
  | Value.int i => Except.ok (Value.datetime (i : Rat))
  | Value.float q => Except.ok (Value.datetime q)
  | Value.bool b => Except.ok (Value.datetime (if b then 1 else 0))
  | Value.str s => dtValidateStr cfg s
  | _ => Except.error (PyErr.validation (VErr.msg "Note a date or time"))

/-- `One._validate`: an unresolved `entity` slot raises a plain `Exception`
(not a `ValidationError`); otherwise the value must be an instance of the
resolved entity class. -/
def oneValidate (entity : Option Nat) (v : Value) : Except PyErr Value :=
  match entity with
  | Option.none => Except.error (PyErr.exception "No linked entity defined")
  | Option.some eid =>
    match v with
    | Value.inst eid' =>
      if eid' == eid then Except.ok (Value.inst eid')
      else Except.error (PyErr.validation (VErr.msg "Not an instance of the expected entity"))
    | _ => Except.error (PyErr.validation (VErr.msg "Not an instance of the expected entity"))

/-- Element check of `Many._validate`: every element must be an instance of
the resolved entity class. -/
def manyElemsOk (eid : Nat) : List Value → Bool
  | [] => true
  | Value.inst eid' :: vs => eid' == eid && manyElemsOk eid vs
  | _ :: _ => false

/-- `Many._validate`: unresolved slot raises a plain `Exception`; the value
must be a list or tuple of instances of the resolved entity class. -/
def manyValidate (entity : Option Nat) (v : Value) : Except PyErr Value :=
  match entity with
  | Option.none => Except.error (PyErr.exception "No linked entity defined")
  | Option.some eid =>
    match v with
    | Value.list vs =>
      if manyElemsOk eid vs then Except.ok (Value.list vs)
      else Except.error (PyErr.validation (VErr.msg "Not an instance of the expected entity"))
    | Value.tuple vs =>
      if manyElemsOk eid vs then Except.ok (Value.tuple vs)
      else Except.error (PyErr.validation (VErr.msg "Not an instance of the expected entity"))
    | _ => Except.error (PyErr.validation (VErr.msg "Expected a list of entities"))

/-- Python `dict.get(k)`: the stored value, or `None` when the key is
missing. -/
def dictGet (d : List (String × Value)) (k : String) : Value :=
  match d.find? (fun p => p.1 == k) with
  | Option.some p => p.2
  | Option.none => Value.none

mutual

/-- `field.validate(value)` as dispatched by Python: `ListOf` overrides
`validate` outright (no absent-value handling at all), `Compound.validate`
threads `enforce_required` (defaulting to `True` here, as when a compound is
validated as a nested field), and every other field runs `Field.validate` —
the absent-input branch first, then its own `_validate`. -/
def validateF : F → Value → Except PyErr Value
  | F.text r d mn mx rx, v =>
    if v.isNone then requiredOrDefault r d else textValidate r mn mx rx v
  | F.boolean r d, v =>
    if v.isNone then requiredOrDefault r d else boolValidate v
  | F.boundingBox r d, v =>
    if v.isNone then requiredOrDefault r d else bboxValidate v
  | F.dateTime r d cfg, v =>
    if v.isNone then requiredOrDefault r d else dtValidate cfg v
  | F.anything r d, v =>
    if v.isNone then requiredOrDefault r d else Except.ok v
  | F.one r d ent _, v =>
    if v.isNone then requiredOrDefault r d else oneValidate ent v
  | F.many r d ent _, v =>
    if v.isNone then requiredOrDefault r d else manyValidate ent v
  | F.listOf _ _ inner, v =>
    match v with
    | Value.list vs =>
      if vs.isEmpty then
        Except.error (PyErr.validation (VErr.msg "This field is required"))
      else
        match elemsValidate inner vs with
        | Except.error e => Except.error e
        | Except.ok _ => Except.ok (Value.list vs)
    | _ => Except.error (PyErr.validation (VErr.msg "Not a list"))
  | F.compound r d fs, v => compoundValidate r d fs true v
termination_by f v => (sizeOf f, 0, 0)
decreasing_by all_goals simp_wf <;> first
  | omega
  | (apply Prod.Lex.left ; omega)
  | (apply Prod.Lex.right ; apply Prod.Lex.left ; omega)
  | (apply Prod.Lex.right ; apply Prod.Lex.right ; omega)

/-- The `for v in values: self.field.validate(v)` loop of `ListOf.validate`:
per-element results are discarded, the first raised error propagates. -/
def elemsValidate : F → List Value → Except PyErr Unit
  | _, [] => Except.ok ()
  | f, v :: vs =>
    match validateF f v with
    | Except.error e => Except.error e
    | Except.ok _ => elemsValidate f vs
termination_by f vs => (sizeOf f, 1, vs.length)
decreasing_by all_goals simp_wf <;> first
  | omega
  | (apply Prod.Lex.left ; omega)
  | (apply Prod.Lex.right ; apply Prod.Lex.left ; omega)
  | (apply Prod.Lex.right ; apply Prod.Lex.right ; omega)

/-- The `for k, v in self.fields.items()` loop of `Compound._validate`,
accumulating the `validated` record and the `errors` mapping in iteration
order.  Only `ValidationError`s are caught into `errors`; any other
exception aborts the whole loop. -/
def compoundLoop (er : Bool) (input : List (String × Value)) :
    List (String × F) → Except PyErr (List (String × Value) × List (String × VErr))
  | [] => Except.ok ([], [])
  | (k, f) :: rest =>
    if f.required && (dictGet input k).isNone && !er then
      compoundLoop er input rest
    else
      match validateF f (dictGet input k) with
      | Except.error (PyErr.exception m) => Except.error (PyErr.exception m)
      | Except.error (PyErr.validation e) =>
        match compoundLoop er input rest with
        | Except.error pe => Except.error pe
        | Except.ok (vs, es) => Except.ok (vs, (k, e) :: es)
      | Except.ok vv =>
        match compoundLoop er input rest with
        | Except.error pe => Except.error pe
        | Except.ok (vs, es) =>
          Except.ok ((if vv.isNone then vs else (k, vv) :: vs), es)
termination_by fs => (sizeOf fs, 1, 0)
decreasing_by all_goals simp_wf <;> first
  | omega
  | (apply Prod.Lex.left ; omega)
  | (apply Prod.Lex.right ; apply Prod.Lex.left ; omega)
  | (apply Prod.Lex.right ; apply Prod.Lex.right ; omega)

/-- `Compound.validate(value, enforce_required)` with the enforce flag
already threaded: absent-input handling from `Field.validate`, then
`Compound._validate` (dict check, per-field loop, error aggregation). -/
def compoundValidate (req : Bool) (d : Value) (fs : List (String × F)) (er : Bool)
    (v : Value) : Except PyErr Value :=
  if v.isNone then requiredOrDefault req d
  else
    match v with
    | Value.dict input =>
      match compoundLoop er input fs with
      | Except.error pe => Except.error pe
      | Except.ok (vs, es) =>
        if es.isEmpty then Except.ok (Value.dict vs)
        else Except.error (PyErr.validation (VErr.compound es))
    | _ => Except.error (PyErr.validation (VErr.msg "Not a dict"))
termination_by (sizeOf fs, 2, 0)
decreasing_by all_goals simp_wf <;> first
  | omega
  | (apply Prod.Lex.left ; omega)
  | (apply Prod.Lex.right ; apply Prod.Lex.left ; omega)
  | (apply Prod.Lex.right ; apply Prod.Lex.right ; omega)

end

/-- Stateful model of `Compound.validate(value, enforce_required)`: the
object's `enforce_required` attribute (`st`, set to `True` by the
constructor) is overwritten from the argument before `Field.validate` /
`Compound._validate` run, and every read of the attribute during the call
sees that overwritten value.  The pair is (raised-or-returned result, value
of the attribute after the call). -/
def compoundValidateSt (req : Bool) (d : Value) (fs : List (String × F)) (st : Bool)
    (v : Value) (er : Bool) : (Except PyErr Value) × Bool :=
  let st1 := er
  (compoundValidate req d fs st1 v, st1)

/-- An `EntityReference` (`One` or `Many`) as `Model.check_references` sees
it: the `entity` slot (`Option.none` while a forward name is pending, else
the identity of the bound entity class) and the `entity_name`. -/
structure Ref where
  entity : Option Nat
  entity_name : String

/-- An entity class as the `Model` constructor sees it: its object identity
`id`, its `__name__`, and its declared references (`Entity.references()`). -/
structure Ent where
  id : Nat
  name : String
  refs : List (String × Ref)

/-- The `entities_by_name` index: `dict([(e.__name__, e) for e in entities])`,
so a later entity with the same name wins. -/
def entByName (es : List Ent) (n : String) : Option Ent :=
  es.foldl (fun acc e => if e.name == n then Option.some e else acc) Option.none

/-- Phase 1 of `Model.check_references` for one reference: an already-bound
reference is untouched; a pending name is looked up in the index, binding
the slot on success and raising a plain `Exception` when the name is
missing. -/
def resolveRef (lookup : String → Option Ent) (r : Ref) : Except String Ref :=
  match r.entity with
  | Option.some _ => Except.ok r
  | Option.none =>
    match lookup r.entity_name with
    | Option.some e => Except.ok { r with entity := Option.some e.id }
    | Option.none =>
      Except.error ("Can\x27t resolve reference to entity \x27" ++ r.entity_name ++ "\x27")

/-- Phase 1 over one entity's reference list. -/
def resolveRefList (lookup : String → Option Ent) :
    List (String × Ref) → Except String (List (String × Ref))
  | [] => Except.ok []
  | (n, r) :: rest =>
    match resolveRef lookup r with
    | Except.error m => Except.error m
    | Except.ok r1 =>
      match resolveRefList lookup rest with
      | Except.error m => Except.error m
      | Except.ok rs => Except.ok ((n, r1) :: rs)

/-- Phase 1 over all entities (the in-place mutation of the Python code is
modelled by returning the entities with their references bound). -/
def resolveEnts (lookup : String → Option Ent) : List Ent → Except String (List Ent)
  | [] => Except.ok []
  | e :: rest =>
    match resolveRefList lookup e.refs with
    | Except.error m => Except.error m
    | Except.ok rs =>
      match resolveEnts lookup rest with
      | Except.error m => Except.error m
      | Except.ok es => Except.ok ({ e with refs := rs } :: es)

/-- Phase 2 (`has_entity`) for one entity's references: each bound target
must be a member of the model's entity set. -/
def checkRefListClosed (ids : List Nat) : List (String × Ref) → Except String Unit
  | [] => Except.ok ()
  | (_, r) :: rest =>
    match r.entity with
    | Option.some i =>
      if i ∈ ids then checkRefListClosed ids rest
      else
        Except.error ("Attempting to reference to an entity \x27" ++ r.entity_name ++
          "\x27 that is outside the model")
    | Option.none =>
      Except.error ("Attempting to reference to an entity \x27" ++ r.entity_name ++
        "\x27 that is outside the model")

/-- Phase 2 over all entities. -/
def checkClosure (ids : List Nat) : List Ent → Except String Unit
  | [] => Except.ok ()
  | e :: rest =>
    match checkRefListClosed ids e.refs with
    | Except.error m => Except.error m
    | Except.ok _ => checkClosure ids rest

/-- A constructed `Model`: its name and its entities, references bound. -/
structure Model where
  name : String
  entities : List Ent

/-- `Model.__init__`: build the name index, then `check_references` — the
name-resolution phase followed by the closed-world phase; any failure
aborts construction. -/
def modelInit (name : String) (entities : List Ent) : Except String Model :=
  match resolveEnts (entByName entities) entities with
  | Except.error m => Except.error m
  | Except.ok es =>
    match checkClosure (es.map Ent.id) es with
    | Except.error m => Except.error m
    | Except.ok _ => Except.ok { name := name, entities := es }

/-- Whether a field is a `ListOf` (the one field class that overrides
`validate` wholesale and so never runs `Field.validate`'s absent-input
branch). -/
def F.isListOf : F → Bool
  | F.listOf _ _ _ => true
  | _ => false

/-- Whether an `Except` result is a success. -/
def isOkE {α : Type} (x : Except PyErr α) : Bool :=
  match x with
  | Except.ok _ => true
  | Except.error _ => false

/-- Whether a result is a raised `ValidationError` (as opposed to a success
or a non-`ValidationError` exception). -/
def isValidationFailure (x : Except PyErr Value) : Bool :=
  match x with
  | Except.error (PyErr.validation _) => true
  | _ => false

/-- A field of a `Compound` whose evaluation in the `_validate` loop does
not raise a non-`ValidationError` exception: either the partial-validation
skip applies, or its `validate` call yields anything but a plain
exception. -/
def NoAbort (er : Bool) (input : List (String × Value)) (p : String × F) : Prop :=
  (p.2.required = true ∧ (dictGet input p.1).isNone = true ∧ er = false) ∨
  (∀ m, validateF p.2 (dictGet input p.1) ≠ Except.error (PyErr.exception m))

/-- What one iteration of the `Compound._validate` loop adds to the
`validated` record: nothing when the partial-validation skip applies, when
the field's `validate` raises, or when the sanitized result is absent;
otherwise the key and sanitized value. -/
def stepVal (er : Bool) (input : List (String × Value)) (p : String × F) :
    Option (String × Value) :=
  if p.2.required && (dictGet input p.1).isNone && !er then Option.none
  else
    match validateF p.2 (dictGet input p.1) with
    | Except.ok vv => if vv.isNone then Option.none else Option.some (p.1, vv)
    | Except.error _ => Option.none

/-- What one iteration of the `Compound._validate` loop adds to the
`errors` mapping: the key and error when the field's `validate` raises a
`ValidationError` (and the partial-validation skip does not apply);
nothing otherwise. -/
def stepErr (er : Bool) (input : List (String × Value)) (p : String × F) :
    Option (String × VErr) :=
  if p.2.required && (dictGet input p.1).isNone && !er then Option.none
  else
    match validateF p.2 (dictGet input p.1) with
    | Except.error (PyErr.validation e) => Option.some (p.1, e)
    | _ => Option.none

/-- The parser that `DateTime._validate` commits to for a string input: the
first one that is both enabled and importable, falling through to
`strptime`.  Selection depends only on the configuration, never on whether
the chosen parser's call succeeds. -/
def dtChoose (cfg : DateTimeCfg) (s : String) : Option Rat :=
  match cfg.use_timelib, cfg.strtodatetime with
  | true, Option.some p => p s
  | _, _ =>
    match cfg.use_dateutil, cfg.parsedate with
    | true, Option.some p => p s
    | _, _ => cfg.strptime cfg.default_format s

/-- A natural-language parser (timelib model) whose call raises on the
given input. -/
def timelibFail : String → Option Rat := fun _ => Option.none

/-- A general parser (dateutil model) whose call succeeds on every input. -/
def dateutilOk : String → Option Rat := fun _ => Option.some 42

/-- A `DateTime` configuration in which both optional parsers are enabled
and importable, the natural-language one failing and the general one
succeeding. -/
def cfgC3 : DateTimeCfg :=
  { default_format := "%x %X"
    use_timelib := true
    use_dateutil := true
    strtodatetime := Option.some timelibFail
    parsedate := Option.some dateutilOk
    strptime := fun _ _ => Option.none }

/-- Demo entity: `Author` with no references. -/
def demoAuthor : Ent := { id := 0, name := "Author", refs := [] }

/-- Demo entity: `Post` with a forward reference `One("Author")`. -/
def demoPost : Ent :=
  { id := 1, name := "Post", refs := [("author", { entity := Option.none, entity_name := "Author" })] }

/-- `demoPost` after `Model.check_references` bound the reference. -/
def demoResolvedPost : Ent :=
  { id := 1, name := "Post", refs := [("author", { entity := Option.some 0, entity_name := "Author" })] }

/-- On absent input, every field except `ListOf` runs `Field.validate`'s
absent branch. -/
theorem validateF_none (f : F) (h : f.isListOf = false) :
    validateF f Value.none = requiredOrDefault f.required f.dflt := by
  cases f <;> simp_all [validateF, F.isListOf, Value.isNone, F.required, F.dflt, compoundValidate]

/-- `ListOf.validate(None)` hits the `isinstance(values, list)` check. -/
theorem validateF_listOf_none (r : Bool) (d : Value) (inner : F) :
    validateF (F.listOf r d inner) Value.none =
      Except.error (PyErr.validation (VErr.msg "Not a list")) := by
  simp [validateF]

/-- C2 (amended): for every field except `ListOf` — which overrides
`validate` and never runs the absent-input branch — `validate(None)` fails
with the required-error when the field is required and otherwise returns the
configured default verbatim, without invoking `_validate`. -/
theorem C2_absent_default (f : F) (h : f.isListOf = false) :
    validateF f Value.none =
      (if f.required = true then
        Except.error (PyErr.validation (VErr.msg "This field is required."))
      else Except.ok f.dflt) := by
  rw [validateF_none f h]
  simp [requiredOrDefault]

/-- C2 witness: an optional `Boolean` field with default `7` returns that
default verbatim on absent input (its `_validate` would have rejected
`7`). -/
theorem C2_witness :
    validateF (F.boolean false (Value.int 7)) Value.none = Except.ok (Value.int 7) := by
  have h := C2_absent_default (F.boolean false (Value.int 7)) rfl
  simpa [F.required, F.dflt] using h

/-- C2 counterexample: an optional `ListOf` field with absent input does not
return its default — `ListOf.validate` rejects `None` as not-a-list. -/
theorem C2_counterexample :
    validateF (F.listOf false Value.none (F.anything false Value.none)) Value.none =
      Except.error (PyErr.validation (VErr.msg "Not a list")) ∧
    Except.error (PyErr.validation (VErr.msg "Not a list")) ≠
      (Except.ok Value.none : Except PyErr Value) := by
  refine ⟨by simp [validateF], ?_⟩
  intro h
  exact Except.noConfusion h

/-- The element loop of `ListOf.validate` succeeds when every element
validates. -/
theorem elemsValidate_ok (inner : F) (vs : List Value)
    (h : ∀ v ∈ vs, ∃ r, validateF inner v = Except.ok r) :
    elemsValidate inner vs = Except.ok () := by
  induction vs with
  | nil => simp [elemsValidate]
  | cons v rest ih =>
    obtain ⟨r, hr⟩ := h v (List.mem_cons_self v rest)
    have hrest := ih (fun w hw => h w (List.mem_cons_of_mem v hw))
    simp [elemsValidate, hr, hrest]

/-- C7: `ListOf.validate` rejects `[]` with the empty-list error for every
inner field and every required/default configuration; every non-list input
(tuples and `None` included) fails with the not-a-list error; and on success
the original list is returned unchanged, per-element sanitized results being
discarded. -/
theorem C7_listOf_empty_rejected (inner : F) (req : Bool) (d : Value) :
    (validateF (F.listOf req d inner) (Value.list []) =
        Except.error (PyErr.validation (VErr.msg "This field is required"))) ∧
    (∀ v : Value, v.isList = false →
        validateF (F.listOf req d inner) v =
          Except.error (PyErr.validation (VErr.msg "Not a list"))) ∧
    (∀ vs : List Value, vs ≠ [] → (∀ v ∈ vs, ∃ r, validateF inner v = Except.ok r) →
        validateF (F.listOf req d inner) (Value.list vs) = Except.ok (Value.list vs)) := by
  refine ⟨by simp [validateF], ?_, ?_⟩
  · intro v hv
    cases v <;> simp_all [validateF, Value.isList]
  · intro vs hne hall
    have he := elemsValidate_ok inner vs hall
    cases vs with
    | nil => exact absurd rfl hne
    | cons a as => simp [validateF, he]

/-- C7 witness: a required `ListOf(Boolean())` rejects `[]` and `3`, and
passes `["yes"]` back unchanged (not the sanitized `[True]`). -/
theorem C7_witness :
    (validateF (F.listOf true Value.none (F.boolean false Value.none)) (Value.list []) =
        Except.error (PyErr.validation (VErr.msg "This field is required"))) ∧
    (validateF (F.listOf true Value.none (F.boolean false Value.none)) (Value.int 3) =
        Except.error (PyErr.validation (VErr.msg "Not a list"))) ∧
    (validateF (F.listOf true Value.none (F.boolean false Value.none))
        (Value.list [Value.str "yes"]) = Except.ok (Value.list [Value.str "yes"])) := by
  obtain ⟨h1, h2, h3⟩ := C7_listOf_empty_rejected (F.boolean false Value.none) true Value.none
  refine ⟨h1, h2 (Value.int 3) rfl, h3 [Value.str "yes"] (by simp) ?_⟩
  intro v hv
  simp only [List.mem_singleton] at hv
  subst hv
  refine ⟨Value.bool true, ?_⟩
  have hl : pyLower "yes" = "yes" := by decide
  simp [validateF, boolValidate, Value.isNone, hl]

/-- A value is `Value.none` exactly when `isNone` says so. -/
theorem Value.isNone_iff (v : Value) : v.isNone = true ↔ v = Value.none := by
  cases v <;> simp [Value.isNone]

/-- A required field never accepts an absent input (either the
required-error or, for `ListOf`, the not-a-list error is raised). -/
theorem validateF_none_required (f : F) (h : f.required = true) :
    isOkE (validateF f Value.none) = false := by
  cases f <;>
    simp_all [validateF, Value.isNone, requiredOrDefault, F.required, compoundValidate, isOkE]

/-- When every declared field's lookup value fails its validation (and the
partial-validation skip does not apply), the `Compound._validate` loop
collects exactly one error per declared field, in declaration order, and
sanitizes nothing. -/
theorem compoundLoop_allFail (er : Bool) (input : List (String × Value)) :
    ∀ fs : List (String × F),
      (∀ p ∈ fs,
        (∃ e, validateF p.2 (dictGet input p.1) = Except.error (PyErr.validation e)) ∧
        ¬(p.2.required = true ∧ (dictGet input p.1).isNone = true ∧ er = false)) →
      ∃ errs : List (String × VErr),
        compoundLoop er input fs = Except.ok ([], errs) ∧
        errs.map Prod.fst = fs.map Prod.fst := by
  intro fs
  induction fs with
  | nil => exact fun _ => ⟨[], by simp [compoundLoop], rfl⟩
  | cons p rest ih =>
    intro h
    obtain ⟨k, f⟩ := p
    obtain ⟨⟨e, he⟩, hskip⟩ := h (k, f) (List.mem_cons_self _ _)
    obtain ⟨errs, hrest, hmap⟩ := ih (fun q hq => h q (List.mem_cons_of_mem _ hq))
    have hcond : (f.required && (dictGet input k).isNone && !er) = false := by
      cases hr : f.required <;> cases hn : (dictGet input k).isNone <;>
        cases her : er <;> simp_all
    refine ⟨(k, e) :: errs, ?_, by simp [hmap]⟩
    simp [compoundLoop, hcond, he, hrest]

/-- C1: compound record validation is exhaustive and never short-circuits —
for every dict input and every (arbitrarily ordered) nonempty list of
distinct declared fields whose looked-up values all fail validation,
`Compound.validate` fails with a single `CompoundValidationError` carrying
exactly one entry per declared field. -/
theorem C1_compound_exhaustive (req : Bool) (d : Value) (fs : List (String × F))
    (input : List (String × Value)) (er : Bool)
    (hne : fs ≠ []) (hnd : (fs.map Prod.fst).Nodup)
    (hfail : ∀ p ∈ fs,
      (∃ e, validateF p.2 (dictGet input p.1) = Except.error (PyErr.validation e)) ∧
      ¬(p.2.required = true ∧ (dictGet input p.1).isNone = true ∧ er = false)) :
    ∃ errs : List (String × VErr),
      compoundValidate req d fs er (Value.dict input) =
        Except.error (PyErr.validation (VErr.compound errs)) ∧
      errs.map Prod.fst = fs.map Prod.fst ∧ errs.length = fs.length := by
  obtain ⟨errs, hloop, hmap⟩ := compoundLoop_allFail er input fs hfail
  have hlen : errs.length = fs.length := by
    have h2 := congrArg List.length hmap
    simpa using h2
  have hne2 : errs.isEmpty = false := by
    cases errs with
    | nil =>
      cases fs with
      | nil => exact absurd rfl hne
      | cons _ _ => simp at hmap
    | cons _ _ => rfl
  refine ⟨errs, ?_, hmap, hlen⟩
  simp [compoundValidate, Value.isNone, hloop, hne2]

/-- C1 witness: a compound with two boolean fields, both given invalid
values, fails (with one error per field, per the theorem). -/
theorem C1_witness :
    isOkE (compoundValidate false Value.none
        [("a", F.boolean false Value.none), ("b", F.boolean false Value.none)] true
        (Value.dict [("a", Value.str "nope"), ("b", Value.int 5)])) = false := by
  have hfail : ∀ p ∈ ([("a", F.boolean false Value.none), ("b", F.boolean false Value.none)] :
      List (String × F)),
      (∃ e, validateF p.2 (dictGet [("a", Value.str "nope"), ("b", Value.int 5)] p.1) =
        Except.error (PyErr.validation e)) ∧
      ¬(p.2.required = true ∧
        (dictGet [("a", Value.str "nope"), ("b", Value.int 5)] p.1).isNone = true ∧
        true = false) := by
    intro p hp
    have hda : dictGet [("a", Value.str "nope"), ("b", Value.int 5)] "a" = Value.str "nope" := rfl
    have hdb : dictGet [("a", Value.str "nope"), ("b", Value.int 5)] "b" = Value.int 5 := rfl
    have hl : pyLower "nope" = "nope" := by decide
    simp only [List.mem_cons, List.not_mem_nil, or_false] at hp
    rcases hp with rfl | rfl
    · refine ⟨⟨VErr.msg "Not a boolean", ?_⟩, by simp⟩
      simp [hda, validateF, Value.isNone, boolValidate, hl]
    · refine ⟨⟨VErr.msg "Not a boolean", ?_⟩, by simp⟩
      simp [hdb, validateF, Value.isNone, boolValidate]
  obtain ⟨errs, he, hmap, hlen⟩ :=
    C1_compound_exhaustive false Value.none
      [("a", F.boolean false Value.none), ("b", F.boolean false Value.none)]
      [("a", Value.str "nope"), ("b", Value.int 5)] true (by simp) (by simp) hfail
  rw [he]
  rfl

/-- Unfolding equation for one iteration of the `Compound._validate` loop. -/
theorem compoundLoop_cons (er : Bool) (input : List (String × Value)) (k : String) (f : F)
    (rest : List (String × F)) :
    compoundLoop er input ((k, f) :: rest) =
      (if f.required && (dictGet input k).isNone && !er then
        compoundLoop er input rest
      else
        match validateF f (dictGet input k) with
        | Except.error (PyErr.exception m) => Except.error (PyErr.exception m)
        | Except.error (PyErr.validation e) =>
          match compoundLoop er input rest with
          | Except.error pe => Except.error pe
          | Except.ok (vs, es) => Except.ok (vs, (k, e) :: es)
        | Except.ok vv =>
          match compoundLoop er input rest with
          | Except.error pe => Except.error pe
          | Except.ok (vs, es) =>
            Except.ok ((if vv.isNone then vs else (k, vv) :: vs), es)) := by
  simp [compoundLoop]

/-- When the `Compound._validate` loop completes without an escaping
exception, the `validated` record and `errors` mapping are exactly the
per-field contributions, in declaration order. -/
theorem compoundLoop_ok_eq (er : Bool) (input : List (String × Value)) :
    ∀ (fs : List (String × F)) (vs : List (String × Value)) (es : List (String × VErr)),
      compoundLoop er input fs = Except.ok (vs, es) →
      vs = fs.filterMap (stepVal er input) ∧ es = fs.filterMap (stepErr er input) := by
  intro fs
  induction fs with
  | nil =>
    intro vs es h
    simp [compoundLoop] at h
    obtain ⟨rfl, rfl⟩ := h
    simp
  | cons p rest ih =>
    intro vs es h
    obtain ⟨k, f⟩ := p
    rw [compoundLoop_cons] at h
    by_cases hcond : (f.required && (dictGet input k).isNone && !er) = true
    · rw [if_pos hcond] at h
      obtain ⟨h1, h2⟩ := ih vs es h
      refine ⟨?_, ?_⟩ <;>
        simp [List.filterMap_cons, stepVal, stepErr, hcond, h1, h2]
    · rw [if_neg hcond] at h
      cases hv : validateF f (dictGet input k) with
      | error pe =>
        rw [hv] at h
        cases pe with
        | exception m => exact absurd h (by simp)
        | validation e =>
          cases hrest : compoundLoop er input rest with
          | error pe2 =>
            rw [hrest] at h
            exact absurd h (by simp)
          | ok pr =>
            obtain ⟨vs2, es2⟩ := pr
            rw [hrest] at h
            simp only [Except.ok.injEq, Prod.mk.injEq] at h
            obtain ⟨rfl, rfl⟩ := h
            obtain ⟨h1, h2⟩ := ih vs2 es2 hrest
            refine ⟨?_, ?_⟩ <;>
              simp [List.filterMap_cons, stepVal, stepErr, hcond, hv, h1, h2]
      | ok vv =>
        rw [hv] at h
        cases hrest : compoundLoop er input rest with
        | error pe2 =>
          rw [hrest] at h
          exact absurd h (by simp)
        | ok pr =>
          obtain ⟨vs2, es2⟩ := pr
          rw [hrest] at h
          simp only [Except.ok.injEq, Prod.mk.injEq] at h
          obtain ⟨hvs, rfl⟩ := h
          obtain ⟨h1, h2⟩ := ih vs2 es2 hrest
          cases hn : vv.isNone with
          | true =>
            rw [hn] at hvs
            simp only [if_true] at hvs
            subst hvs
            refine ⟨?_, ?_⟩ <;>
              simp [List.filterMap_cons, stepVal, stepErr, hcond, hv, hn, h1, h2]
          | false =>
            rw [hn] at hvs
            simp only [Bool.false_eq_true, if_false] at hvs
            subst hvs
            refine ⟨?_, ?_⟩ <;>
              simp [List.filterMap_cons, stepVal, stepErr, hcond, hv, hn, h1, h2]

/-- In an association list with distinct keys, a key determines its
entry. -/
theorem keys_nodup_unique {β : Type} :
    ∀ (l : List (String × β)) (k : String) (a b : β),
      (l.map Prod.fst).Nodup → (k, a) ∈ l → (k, b) ∈ l → a = b := by
  intro l
  induction l with
  | nil => intro k a b _ ha; simp at ha
  | cons p rest ih =>
    intro k a b hnd ha hb
    simp only [List.map_cons, List.nodup_cons] at hnd
    rcases List.mem_cons.mp ha with rfl | ha2
    · rcases List.mem_cons.mp hb with hb1 | hb2
      · exact (congrArg Prod.snd hb1).symm
      · exact absurd (List.mem_map_of_mem Prod.fst hb2) (by simpa using hnd.1)
    · rcases List.mem_cons.mp hb with rfl | hb2
      · exact absurd (List.mem_map_of_mem Prod.fst ha2) (by simpa using hnd.1)
      · exact ih k a b hnd.2 ha2 hb2

/-- Inversion of a sanitized contribution: it carries the field's key, a
non-absent value that the field's `validate` returned, and the
partial-validation skip did not apply. -/
theorem stepVal_some_inv (er : Bool) (input : List (String × Value)) (q : String × F)
    (p : String × Value) (h : stepVal er input q = Option.some p) :
    p.1 = q.1 ∧ p.2.isNone = false ∧
    validateF q.2 (dictGet input q.1) = Except.ok p.2 ∧
    ¬(q.2.required = true ∧ (dictGet input q.1).isNone = true ∧ er = false) := by
  unfold stepVal at h
  split at h
  · exact absurd h (by simp)
  next hc =>
    split at h
    next vv hv =>
      split at h
      · exact absurd h (by simp)
      next hn =>
        simp only [Option.some.injEq] at h
        subst h
        refine ⟨rfl, by simpa using hn, hv, ?_⟩
        intro hand
        obtain ⟨h1, h2, h3⟩ := hand
        exact hc (by simp [h1, h2, h3])
    next e hv => exact absurd h (by simp)

/-- Inversion of an error contribution: it carries the field's key and the
`ValidationError` that the field's `validate` raised, and the
partial-validation skip did not apply. -/
theorem stepErr_some_inv (er : Bool) (input : List (String × Value)) (q : String × F)
    (p : String × VErr) (h : stepErr er input q = Option.some p) :
    p.1 = q.1 ∧ validateF q.2 (dictGet input q.1) = Except.error (PyErr.validation p.2) ∧
    ¬(q.2.required = true ∧ (dictGet input q.1).isNone = true ∧ er = false) := by
  unfold stepErr at h
  split at h
  · exact absurd h (by simp)
  next hc =>
    split at h
    next e hv =>
      simp only [Option.some.injEq] at h
      subst h
      refine ⟨rfl, hv, ?_⟩
      intro hand
      obtain ⟨h1, h2, h3⟩ := hand
      exact hc (by simp [h1, h2, h3])
    next hother => exact absurd h (by simp)

/-- A field whose `validate` returns a non-absent sanitized value
contributes exactly that pair to the `validated` record. -/
theorem stepVal_eq_some (er : Bool) (input : List (String × Value)) (k : String) (f : F)
    (v : Value) (hv : validateF f (dictGet input k) = Except.ok v) (hn : v.isNone = false) :
    stepVal er input (k, f) = Option.some (k, v) := by
  unfold stepVal
  by_cases hc : (f.required && (dictGet input k).isNone && !er) = true
  · exfalso
    have h1 : f.required = true := by
      cases h : f.required
      · rw [h] at hc; simp at hc
      · rfl
    have h2 : (dictGet input k).isNone = true := by
      cases h : (dictGet input k).isNone
      · rw [h] at hc; simp at hc
      · rfl
    have := validateF_none_required f h1
    rw [(Value.isNone_iff _).mp h2] at hv
    rw [hv] at this
    simp [isOkE] at this
  · rw [if_neg hc, hv]
    simp [hn]

/-- A field whose step is skipped, or whose `validate` sanitizes to the
absent value, contributes nothing to the `validated` record. -/
theorem stepVal_eq_none (er : Bool) (input : List (String × Value)) (k : String) (f : F)
    (h : (f.required = true ∧ (dictGet input k).isNone = true ∧ er = false) ∨
      validateF f (dictGet input k) = Except.ok Value.none) :
    stepVal er input (k, f) = Option.none := by
  unfold stepVal
  by_cases hc : (f.required && (dictGet input k).isNone && !er) = true
  · rw [if_pos hc]
  · rw [if_neg hc]
    rcases h with ⟨h1, h2, h3⟩ | hok
    · exact absurd (by simp [h1, h2, h3]) hc
    · rw [hok]
      simp [Value.isNone]

/-- A field whose `validate` raises a `ValidationError` (and whose step is
not skipped) contributes exactly that error to the `errors` mapping. -/
theorem stepErr_eq_some (er : Bool) (input : List (String × Value)) (k : String) (f : F)
    (e : VErr) (hv : validateF f (dictGet input k) = Except.error (PyErr.validation e))
    (hns : ¬(f.required = true ∧ (dictGet input k).isNone = true ∧ er = false)) :
    stepErr er input (k, f) = Option.some (k, e) := by
  unfold stepErr
  have hc : (f.required && (dictGet input k).isNone && !er) = false := by
    cases h1 : f.required <;> cases h2 : (dictGet input k).isNone <;> cases h3 : er <;>
      simp_all
  rw [hc]
  simp [hv]

/-- A skipped field contributes nothing to the `errors` mapping. -/
theorem stepErr_eq_none_skip (er : Bool) (input : List (String × Value)) (k : String) (f : F)
    (h1 : f.required = true) (h2 : (dictGet input k).isNone = true) (h3 : er = false) :
    stepErr er input (k, f) = Option.none := by
  unfold stepErr
  rw [if_pos (by simp [h1, h2, h3])]

/-- A successful `Compound.validate` on a dict means the loop completed with
no errors, and the result is exactly the accumulated `validated` record. -/
theorem compoundValidate_dict_ok (req : Bool) (d : Value) (fs : List (String × F))
    (er : Bool) (input : List (String × Value)) (out : List (String × Value))
    (h : compoundValidate req d fs er (Value.dict input) = Except.ok (Value.dict out)) :
    compoundLoop er input fs = Except.ok (out, []) := by
  unfold compoundValidate at h
  simp only [Value.isNone, Bool.false_eq_true, if_false] at h
  split at h
  · exact absurd h (by simp)
  next vs es hl =>
    split at h
    next hes =>
      simp only [Except.ok.injEq, Value.dict.injEq] at h
      have hesnil : es = [] := by
        cases es with
        | nil => rfl
        | cons a as => simp [List.isEmpty] at hes
      subst hesnil
      rw [hl, h]
    next hes => exact absurd h (by simp)

/-- C5 (amended): in `Compound._validate`, a required declared field whose
looked-up value is absent is, with `enforce_required` false, treated as
valid with an absent result — its key appears neither in the sanitized
record nor in the error mapping; with `enforce_required` true it fails with
the error its own `validate` raises on absent input: the required-error for
every field that inherits `Field.validate`, but the not-a-list error for a
`ListOf` field. -/
theorem C5_partial_required (fs : List (String × F)) (input : List (String × Value))
    (k : String) (f : F)
    (hnd : (fs.map Prod.fst).Nodup)
    (hmem : (k, f) ∈ fs) (hreq : f.required = true)
    (habs : (dictGet input k).isNone = true) :
    (∀ vs es, compoundLoop false input fs = Except.ok (vs, es) →
        k ∉ vs.map Prod.fst ∧ k ∉ es.map Prod.fst) ∧
    (f.isListOf = false →
      ∀ vs es, compoundLoop true input fs = Except.ok (vs, es) →
        (k, VErr.msg "This field is required.") ∈ es) ∧
    (f.isListOf = true →
      ∀ vs es, compoundLoop true input fs = Except.ok (vs, es) →
        (k, VErr.msg "Not a list") ∈ es) := by
  refine ⟨?_, ?_, ?_⟩
  · intro vs es hloop
    obtain ⟨hvs, hes⟩ := compoundLoop_ok_eq false input fs vs es hloop
    constructor
    · intro hk
      obtain ⟨p, hp, hpk⟩ := List.mem_map.mp hk
      rw [hvs] at hp
      obtain ⟨q, hq, hstep⟩ := List.mem_filterMap.mp hp
      obtain ⟨hkey, _, _, hns⟩ := stepVal_some_inv false input q p hstep
      have hq1 : q.1 = k := by rw [← hkey, hpk]
      have hqmem : (k, q.2) ∈ fs := by
        rw [← hq1]
        simpa using hq
      have hfq : q.2 = f := keys_nodup_unique fs k q.2 f hnd hqmem hmem
      exact hns ⟨by rw [hfq]; exact hreq, by rw [hq1]; exact habs, rfl⟩
    · intro hk
      obtain ⟨p, hp, hpk⟩ := List.mem_map.mp hk
      rw [hes] at hp
      obtain ⟨q, hq, hstep⟩ := List.mem_filterMap.mp hp
      obtain ⟨hkey, _, hns⟩ := stepErr_some_inv false input q p hstep
      have hq1 : q.1 = k := by rw [← hkey, hpk]
      have hqmem : (k, q.2) ∈ fs := by
        rw [← hq1]
        simpa using hq
      have hfq : q.2 = f := keys_nodup_unique fs k q.2 f hnd hqmem hmem
      exact hns ⟨by rw [hfq]; exact hreq, by rw [hq1]; exact habs, rfl⟩
  · intro hL vs es hloop
    obtain ⟨_, hes⟩ := compoundLoop_ok_eq true input fs vs es hloop
    rw [hes]
    refine List.mem_filterMap.mpr ⟨(k, f), hmem, ?_⟩
    have hd : dictGet input k = Value.none := (Value.isNone_iff _).mp habs
    have hv : validateF f (dictGet input k) =
        Except.error (PyErr.validation (VErr.msg "This field is required.")) := by
      rw [hd, validateF_none f hL]
      simp [requiredOrDefault, hreq]
    exact stepErr_eq_some true input k f _ hv (by simp)
  · intro hL vs es hloop
    obtain ⟨_, hes⟩ := compoundLoop_ok_eq true input fs vs es hloop
    rw [hes]
    refine List.mem_filterMap.mpr ⟨(k, f), hmem, ?_⟩
    have hd : dictGet input k = Value.none := (Value.isNone_iff _).mp habs
    have hv : validateF f (dictGet input k) =
        Except.error (PyErr.validation (VErr.msg "Not a list")) := by
      rw [hd]
      cases f <;> simp_all [F.isListOf, validateF_listOf_none]
    exact stepErr_eq_some true input k f _ hv (by simp)

/-- C5 counterexample: a required `ListOf` field, absent from the input,
fails under `enforce_required=True` with the not-a-list error, which is not
the required-error the claim promises. -/
theorem C5_counterexample :
    compoundValidate false Value.none
        [("a", F.listOf true Value.none (F.anything false Value.none))] true
        (Value.dict []) =
      Except.error (PyErr.validation (VErr.compound [("a", VErr.msg "Not a list")])) ∧
    VErr.msg "Not a list" ≠ VErr.msg "This field is required." := by
  constructor
  · simp [compoundValidate, Value.isNone, compoundLoop, validateF, dictGet, F.required]
  · intro h
    simp at h

/-- C5 witness: with fields `a` (required `Text`) and `b` (optional
`Boolean`) and input `{"b": True}`, partial validation omits `a` entirely
while full validation records the required-error for `a`. -/
theorem C5_witness :
    ("a" ∉ ([("b", Value.bool true)] : List (String × Value)).map Prod.fst ∧
     "a" ∉ ([] : List (String × VErr)).map Prod.fst) ∧
    ("a", VErr.msg "This field is required.") ∈
      ([("a", VErr.msg "This field is required.")] : List (String × VErr)) := by
  have h := C5_partial_required
    [("a", F.text true Value.none Option.none Option.none Option.none),
     ("b", F.boolean false Value.none)]
    [("b", Value.bool true)] "a"
    (F.text true Value.none Option.none Option.none Option.none)
    (by simp) (by simp) rfl rfl
  have hloop0 : compoundLoop false [("b", Value.bool true)]
      [("a", F.text true Value.none Option.none Option.none Option.none),
       ("b", F.boolean false Value.none)] =
      Except.ok ([("b", Value.bool true)], []) := by
    simp [compoundLoop, validateF, dictGet, Value.isNone, F.required, boolValidate]
  have hloop1 : compoundLoop true [("b", Value.bool true)]
      [("a", F.text true Value.none Option.none Option.none Option.none),
       ("b", F.boolean false Value.none)] =
      Except.ok ([("b", Value.bool true)], [("a", VErr.msg "This field is required.")]) := by
    simp [compoundLoop, validateF, dictGet, Value.isNone, F.required, boolValidate,
      requiredOrDefault]
  exact ⟨h.1 _ _ hloop0, h.2.1 rfl _ _ hloop1⟩

/-- C6: on successful `Compound` validation of a dict, the sanitized record
contains exactly the declared keys whose sanitized value is not absent —
every output entry is a declared key with a non-`None` value (so undeclared
input keys never appear), every declared field whose `validate` returned a
non-absent value appears with it, and a declared key whose result is absent
(the partial-validation skip, or a `None` sanitized result such as an unset
optional field without a default) is omitted rather than mapped to
`None`. -/
theorem C6_output_shape (req : Bool) (d : Value) (fs : List (String × F))
    (input : List (String × Value)) (er : Bool) (out : List (String × Value))
    (hnd : (fs.map Prod.fst).Nodup)
    (h : compoundValidate req d fs er (Value.dict input) = Except.ok (Value.dict out)) :
    (∀ p ∈ out, p.1 ∈ fs.map Prod.fst ∧ p.2.isNone = false) ∧
    (∀ k f v, (k, f) ∈ fs → validateF f (dictGet input k) = Except.ok v →
        v.isNone = false → (k, v) ∈ out) ∧
    (∀ k f, (k, f) ∈ fs →
        ((f.required = true ∧ (dictGet input k).isNone = true ∧ er = false) ∨
         validateF f (dictGet input k) = Except.ok Value.none) →
        k ∉ out.map Prod.fst) := by
  have hloop := compoundValidate_dict_ok req d fs er input out h
  obtain ⟨hvs, _⟩ := compoundLoop_ok_eq er input fs out [] hloop
  refine ⟨?_, ?_, ?_⟩
  · intro p hp
    rw [hvs] at hp
    obtain ⟨q, hq, hstep⟩ := List.mem_filterMap.mp hp
    obtain ⟨hkey, hnn, _, _⟩ := stepVal_some_inv er input q p hstep
    refine ⟨?_, hnn⟩
    rw [hkey]
    exact List.mem_map_of_mem Prod.fst hq
  · intro k f v hmem hv hn
    rw [hvs]
    exact List.mem_filterMap.mpr ⟨(k, f), hmem, stepVal_eq_some er input k f v hv hn⟩
  · intro k f hmem hnone hk
    obtain ⟨p, hp, hpk⟩ := List.mem_map.mp hk
    rw [hvs] at hp
    obtain ⟨q, hq, hstep⟩ := List.mem_filterMap.mp hp
    obtain ⟨hkey, _, _, _⟩ := stepVal_some_inv er input q p hstep
    have hq1 : q.1 = k := by rw [← hkey, hpk]
    have hqmem : (k, q.2) ∈ fs := by
      rw [← hq1]
      simpa using hq
    have hfq : q.2 = f := keys_nodup_unique fs k q.2 f hnd hqmem hmem
    have hnone2 : stepVal er input q = Option.none := by
      have hqeta : q = (k, f) := by
        rw [← hq1, ← hfq]
      rw [hqeta]
      exact stepVal_eq_none er input k f hnone
    rw [hnone2] at hstep
    exact Option.noConfusion hstep

/-- C6 witness: `Compound(foo=Text(), bar=Boolean())` on
`{"foo": "x", "unknown": "y"}` sanitizes to exactly `{"foo": "x"}` — the
undeclared key is dropped and the unset optional `bar` is omitted. -/
theorem C6_witness :
    (("foo", Value.str "x") ∈ ([("foo", Value.str "x")] : List (String × Value))) ∧
    "unknown" ∉ ([("foo", Value.str "x")] : List (String × Value)).map Prod.fst ∧
    "bar" ∉ ([("foo", Value.str "x")] : List (String × Value)).map Prod.fst := by
  have hval : compoundValidate false Value.none
      [("foo", F.text false Value.none Option.none Option.none Option.none),
       ("bar", F.boolean false Value.none)] true
      (Value.dict [("foo", Value.str "x"), ("unknown", Value.str "y")]) =
      Except.ok (Value.dict [("foo", Value.str "x")]) := by
    simp [compoundValidate, compoundLoop, validateF, dictGet, Value.isNone, F.required,
      textValidate, requiredOrDefault]
  have h := C6_output_shape false Value.none
    [("foo", F.text false Value.none Option.none Option.none Option.none),
     ("bar", F.boolean false Value.none)]
    [("foo", Value.str "x"), ("unknown", Value.str "y")] true
    [("foo", Value.str "x")] (by simp) hval
  refine ⟨?_, ?_, ?_⟩
  · refine h.2.1 "foo" (F.text false Value.none Option.none Option.none Option.none)
      (Value.str "x") (by simp) ?_ rfl
    simp [dictGet, validateF, Value.isNone, textValidate]
  · intro hk
    obtain ⟨p, hp, hpk⟩ := List.mem_map.mp hk
    have := (h.1 p hp).1
    rw [hpk] at this
    simp at this
  · exact h.2.2 "bar" (F.boolean false Value.none) (by simp)
      (Or.inr (by simp [dictGet, validateF, Value.isNone, requiredOrDefault]))

/-- A non-`ValidationError` exception raised by a field whose earlier
siblings do not themselves abort escapes the `Compound._validate` loop
unchanged. -/
theorem compoundLoop_abort (er : Bool) (input : List (String × Value)) :
    ∀ (pre : List (String × F)) (k : String) (f : F) (post : List (String × F)) (m : String),
      (∀ p ∈ pre, NoAbort er input p) →
      (dictGet input k).isNone = false →
      validateF f (dictGet input k) = Except.error (PyErr.exception m) →
      compoundLoop er input (pre ++ (k, f) :: post) = Except.error (PyErr.exception m) := by
  intro pre
  induction pre with
  | nil =>
    intro k f post m _ hnn hv
    rw [List.nil_append, compoundLoop_cons]
    have hc : (f.required && (dictGet input k).isNone && !er) = false := by
      rw [hnn]
      simp
    simp [hc, hv]
  | cons p rest ih =>
    intro k f post m hpre hnn hv
    obtain ⟨k1, f1⟩ := p
    have hone := hpre (k1, f1) (List.mem_cons_self _ _)
    have hihres := ih k f post m (fun q hq => hpre q (List.mem_cons_of_mem _ hq)) hnn hv
    rw [List.cons_append, compoundLoop_cons]
    by_cases hc : (f1.required && (dictGet input k1).isNone && !er) = true
    · rw [if_pos hc]
      exact hihres
    · rw [if_neg hc]
      cases hv1 : validateF f1 (dictGet input k1) with
      | ok vv => simp [hihres]
      | error pe =>
        cases pe with
        | validation e => simp [hihres]
        | exception m1 =>
          exfalso
          unfold NoAbort at hone
          rcases hone with ⟨h1, h2, h3⟩ | hno
          · exact hc (by simp [h1, h2, h3])
          · exact hno m1 hv1

/-- C10: validating a present value through a `One` or `Many` reference
whose `entity` slot is still unresolved raises the plain (non-validation)
"No linked entity defined" exception; and any such exception raised by a
declared field of a `Compound` (whose earlier fields do not abort) escapes
`Compound.validate` unchanged instead of being recorded in a
`CompoundValidationError`. -/
theorem C10_unresolved_escapes :
    (∀ (req : Bool) (d : Value) (nm : String) (v : Value), v.isNone = false →
      validateF (F.one req d Option.none nm) v =
        Except.error (PyErr.exception "No linked entity defined")) ∧
    (∀ (req : Bool) (d : Value) (nm : String) (v : Value), v.isNone = false →
      validateF (F.many req d Option.none nm) v =
        Except.error (PyErr.exception "No linked entity defined")) ∧
    (∀ (creq : Bool) (cd : Value) (pre post : List (String × F)) (k : String) (f : F)
        (input : List (String × Value)) (er : Bool) (m : String),
      (∀ p ∈ pre, NoAbort er input p) →
      (dictGet input k).isNone = false →
      validateF f (dictGet input k) = Except.error (PyErr.exception m) →
      compoundValidate creq cd (pre ++ (k, f) :: post) er (Value.dict input) =
        Except.error (PyErr.exception m)) := by
  refine ⟨?_, ?_, ?_⟩
  · intro req d nm v hv
    cases v <;> simp_all [validateF, Value.isNone, oneValidate]
  · intro req d nm v hv
    cases v <;> simp_all [validateF, Value.isNone, manyValidate]
  · intro creq cd pre post k f input er m hpre hnn hv
    have hloop := compoundLoop_abort er input pre k f post m hpre hnn hv
    simp [compoundValidate, Value.isNone, hloop]

/-- C10 witness: an unresolved `One("Author")` rejects an instance with the
plain exception, an unresolved `Many("Author")` likewise, and inside a
compound (after a harmless `Text` field) the exception escapes the whole
`validate` call. -/
theorem C10_witness :
    validateF (F.one false Value.none Option.none "Author") (Value.inst 0) =
      Except.error (PyErr.exception "No linked entity defined") ∧
    validateF (F.many false Value.none Option.none "Author") (Value.list [Value.inst 0]) =
      Except.error (PyErr.exception "No linked entity defined") ∧
    compoundValidate false Value.none
        [("t", F.text false Value.none Option.none Option.none Option.none),
         ("r", F.one false Value.none Option.none "Author")] true
        (Value.dict [("r", Value.inst 0)]) =
      Except.error (PyErr.exception "No linked entity defined") := by
  obtain ⟨h1, h2, h3⟩ := C10_unresolved_escapes
  have hdr : dictGet [("r", Value.inst 0)] "r" = Value.inst 0 := rfl
  have hdt : dictGet [("r", Value.inst 0)] "t" = Value.none := rfl
  have hpre : ∀ p ∈ ([("t", F.text false Value.none Option.none Option.none Option.none)] :
      List (String × F)), NoAbort true [("r", Value.inst 0)] p := by
    intro p hp
    simp only [List.mem_singleton] at hp
    subst hp
    unfold NoAbort
    refine Or.inr ?_
    intro m hm
    rw [hdt] at hm
    simp [validateF, Value.isNone, requiredOrDefault] at hm
  have hv : validateF (F.one false Value.none Option.none "Author")
      (dictGet [("r", Value.inst 0)] "r") =
      Except.error (PyErr.exception "No linked entity defined") := by
    rw [hdr]
    exact h1 false Value.none "Author" (Value.inst 0) rfl
  have h4 := h3 false Value.none
    [("t", F.text false Value.none Option.none Option.none Option.none)] [] "r"
    (F.one false Value.none Option.none "Author") [("r", Value.inst 0)] true
    "No linked entity defined" hpre rfl hv
  exact ⟨h1 false Value.none "Author" (Value.inst 0) rfl,
         h2 false Value.none "Author" (Value.list [Value.inst 0]) rfl,
         by simpa using h4⟩

/-- C3 (amended): for a string input, `DateTime._validate` commits to the
single parser selected by enablement and availability (timelib first, then
dateutil, then `strptime`): the result is that parser's success, or the
"Unrecognized date format" error the moment that parser raises — later
parsers are never consulted after an earlier enabled-and-available one
fails. -/
theorem C3_parser_chain (req : Bool) (d : Value) (cfg : DateTimeCfg) (s : String) :
    validateF (F.dateTime req d cfg) (Value.str s) =
      (match dtChoose cfg s with
       | Option.some t => Except.ok (Value.datetime t)
       | Option.none =>
         Except.error (PyErr.validation (VErr.msg "Unrecognized date format"))) := by
  have h1 : validateF (F.dateTime req d cfg) (Value.str s) = dtValidateStr cfg s := by
    simp [validateF, Value.isNone, dtValidate]
  rw [h1]
  unfold dtValidateStr dtChoose
  cases htl : cfg.use_timelib <;> cases hst : cfg.strtodatetime <;>
    cases hdu : cfg.use_dateutil <;> cases hpd : cfg.parsedate <;>
      simp [htl, hst, hdu, hpd]

/-- C3 counterexample: with timelib and dateutil both enabled and available,
timelib's parser raising on the input, and dateutil's parser succeeding on
it, validation nevertheless fails with "Unrecognized date format" — the
enabled second parser that does not raise is never used. -/
theorem C3_counterexample :
    validateF (F.dateTime false Value.none cfgC3) (Value.str "next tuesday") =
      Except.error (PyErr.validation (VErr.msg "Unrecognized date format")) ∧
    cfgC3.use_timelib = true ∧ cfgC3.strtodatetime = Option.some timelibFail ∧
    timelibFail "next tuesday" = Option.none ∧
    cfgC3.use_dateutil = true ∧ cfgC3.parsedate = Option.some dateutilOk ∧
    dateutilOk "next tuesday" = Option.some 42 := by
  refine ⟨?_, rfl, rfl, rfl, rfl, rfl, rfl⟩
  simp [validateF, Value.isNone, dtValidate, dtValidateStr, cfgC3, timelibFail]

/-- C9 (amended): `Compound.validate` does overwrite the object's
`enforce_required` attribute with its argument, but because the attribute is
rewritten at every entry before any read, the call's result is independent
of the stored state: it depends only on the configuration, the input and the
`enforce_required` argument, so validating the same input twice (in any
interleaving) yields the same result, which is the pure semantics
`compoundValidate`. -/
theorem C9_validate_state (req : Bool) (d : Value) (fs : List (String × F))
    (st st2 : Bool) (v : Value) (er : Bool) :
    (compoundValidateSt req d fs st v er).1 = (compoundValidateSt req d fs st2 v er).1 ∧
    (compoundValidateSt req d fs st v er).2 = er ∧
    (compoundValidateSt req d fs (compoundValidateSt req d fs st v er).2 v er).1 =
      (compoundValidateSt req d fs st v er).1 ∧
    (compoundValidateSt req d fs st v er).1 = compoundValidate req d fs er v :=
  ⟨rfl, rfl, rfl, rfl⟩

/-- C9 counterexample: a `Compound` constructed with `enforce_required =
True` ends a `validate(value, enforce_required=False)` call with its
`enforce_required` attribute equal to `False` — the call mutated the
field's stored state. -/
theorem C9_counterexample :
    (compoundValidateSt false Value.none [] true (Value.dict []) false).2 = false ∧
    false ≠ true :=
  ⟨rfl, by decide⟩

/-- C8 (amended): `BoundingBox.validate` accepts a 4-element list/tuple or a
comma-separated string of 4 numbers and returns the fixed-order 4-tuple of
floats, with `validate("1,2,3,4") = validate([1,2,3,4]) = (1.0,2.0,3.0,4.0)`;
a wrong element count fails with the size error; a non-numeric string
element fails with the out-of-range `ValidationError` (the `ValueError` from
`float()` is caught); a value outside `[-180, 180]` fails with the same
`ValidationError`; but a non-numeric element that is neither a string nor a
number makes `float()` raise an uncaught `TypeError`, which escapes as a
plain exception rather than a `ValidationError`. -/
theorem C8_boundingBox (req : Bool) (d : Value) :
    (validateF (F.boundingBox req d) (Value.str "1,2,3,4") =
       Except.ok (Value.tuple
         [Value.float 1, Value.float 2, Value.float 3, Value.float 4])) ∧
    (validateF (F.boundingBox req d)
        (Value.list [Value.int 1, Value.int 2, Value.int 3, Value.int 4]) =
       Except.ok (Value.tuple
         [Value.float 1, Value.float 2, Value.float 3, Value.float 4])) ∧
    (∀ elems : List Value, elems.length ≠ 4 →
       validateF (F.boundingBox req d) (Value.list elems) =
         Except.error (PyErr.validation (VErr.msg "A bounding box must have 4 values"))) ∧
    (∀ elems : List Value, elems.length = 4 →
       convertFloats elems = Except.error FloatErr.valueError →
       validateF (F.boundingBox req d) (Value.list elems) =
         Except.error (PyErr.validation
           (VErr.msg "All values must be numbers in the range -180.0 to 180.0"))) ∧
    (∀ elems : List Value, elems.length = 4 →
       convertFloats elems = Except.error FloatErr.typeError →
       validateF (F.boundingBox req d) (Value.list elems) =
         Except.error (PyErr.exception "float() argument must be a string or a number")) ∧
    (∀ (elems : List Value) (qs : List Rat), elems.length = 4 →
       convertFloats elems = Except.ok qs →
       (qs.all (fun q => decide (-180 ≤ q) && decide (q ≤ 180))) = false →
       validateF (F.boundingBox req d) (Value.list elems) =
         Except.error (PyErr.validation
           (VErr.msg "All values must be numbers in the range -180.0 to 180.0"))) := by
  have key : ∀ (s : String) (c : Char) (n : Nat), s.data = [c] →
      takeSign [c] = ((1 : Int), [c]) → splitExp [c] = ([c], Option.none) →
      splitPoint [c] = ([c], Option.none) → stripChars [c] = [c] →
      isDigitRun [c] = true → digitsToNat [c] = n →
      pyFloat s = Option.some ((n : Int) : Rat) := by
    intro s c n h0 h2 h3 h4 h1 h5 h6
    unfold pyFloat
    simp [h0, h1, h2, h3, parseMantissa, h4, h5, h6]
  have p1 : pyFloat "1" = Option.some (1 : Rat) := by
    rw [key "1" '1' 1 (by decide) (by decide) (by decide) (by decide) (by decide)
      (by decide) (by decide)]
    norm_num
  have p2 : pyFloat "2" = Option.some (2 : Rat) := by
    rw [key "2" '2' 2 (by decide) (by decide) (by decide) (by decide) (by decide)
      (by decide) (by decide)]
    norm_num
  have p3 : pyFloat "3" = Option.some (3 : Rat) := by
    rw [key "3" '3' 3 (by decide) (by decide) (by decide) (by decide) (by decide)
      (by decide) (by decide)]
    norm_num
  have p4 : pyFloat "4" = Option.some (4 : Rat) := by
    rw [key "4" '4' 4 (by decide) (by decide) (by decide) (by decide) (by decide)
      (by decide) (by decide)]
    norm_num
  refine ⟨?_, ?_, ?_, ?_, ?_, ?_⟩
  · have hsplit : bboxElems (Value.str "1,2,3,4") =
        Except.ok [Value.str "1", Value.str "2", Value.str "3", Value.str "4"] := rfl
    have hconv : convertFloats [Value.str "1", Value.str "2", Value.str "3", Value.str "4"] =
        Except.ok [(1 : Rat), 2, 3, 4] := by
      simp [convertFloats, pyFloatConv, p1, p2, p3, p4]
    have hall : (([1, 2, 3, 4] : List Rat).all
        (fun q => decide (-180 ≤ q) && decide (q ≤ 180))) = true := by decide
    simp [validateF, Value.isNone, bboxValidate, hsplit, hconv, hall]
  · have hconv : convertFloats [Value.int 1, Value.int 2, Value.int 3, Value.int 4] =
        Except.ok [(1 : Rat), 2, 3, 4] := by
      norm_num [convertFloats, pyFloatConv]
    have hall : (([1, 2, 3, 4] : List Rat).all
        (fun q => decide (-180 ≤ q) && decide (q ≤ 180))) = true := by decide
    simp [validateF, Value.isNone, bboxValidate, bboxElems, hconv, hall]
  · intro elems hlen
    have hb : (elems.length != 4) = true := by simpa using hlen
    simp [validateF, Value.isNone, bboxValidate, bboxElems, hb]
  · intro elems hlen hconv
    have hb : (elems.length != 4) = false := by simp [hlen]
    simp [validateF, Value.isNone, bboxValidate, bboxElems, hb, hconv]
  · intro elems hlen hconv
    have hb : (elems.length != 4) = false := by simp [hlen]
    simp [validateF, Value.isNone, bboxValidate, bboxElems, hb, hconv]
  · intro elems qs hlen hconv hall
    have hb : (elems.length != 4) = false := by simp [hlen]
    simp [validateF, Value.isNone, bboxValidate, bboxElems, hb, hconv, hall]

/-- C8 counterexample: `[None, 1, 2, 3]` has a non-numeric element, yet the
call does not fail with a `ValidationError` — `float(None)` raises a
`TypeError` that the code does not catch, so a plain exception escapes. -/
theorem C8_counterexample :
    validateF (F.boundingBox false Value.none)
        (Value.list [Value.none, Value.int 1, Value.int 2, Value.int 3]) =
      Except.error (PyErr.exception "float() argument must be a string or a number") ∧
    isValidationFailure (validateF (F.boundingBox false Value.none)
        (Value.list [Value.none, Value.int 1, Value.int 2, Value.int 3])) = false := by
  have h : validateF (F.boundingBox false Value.none)
      (Value.list [Value.none, Value.int 1, Value.int 2, Value.int 3]) =
      Except.error (PyErr.exception "float() argument must be a string or a number") := by
    simp [validateF, Value.isNone, bboxValidate, bboxElems, convertFloats, pyFloatConv]
  refine ⟨h, ?_⟩
  rw [h]
  rfl

/-- C8 witness: a 1-element list fails with the size error, a non-numeric
string fails with the range `ValidationError`, an out-of-range value fails
with the range `ValidationError`, and the string "1,2,3,4" sanitizes to the
4-tuple of floats. -/
theorem C8_witness :
    (validateF (F.boundingBox false Value.none) (Value.list [Value.int 1]) =
       Except.error (PyErr.validation (VErr.msg "A bounding box must have 4 values"))) ∧
    (validateF (F.boundingBox false Value.none)
        (Value.list [Value.str "abc", Value.int 1, Value.int 1, Value.int 1]) =
       Except.error (PyErr.validation
         (VErr.msg "All values must be numbers in the range -180.0 to 180.0"))) ∧
    (validateF (F.boundingBox false Value.none)
        (Value.list [Value.int 181, Value.int 0, Value.int 0, Value.int 0]) =
       Except.error (PyErr.validation
         (VErr.msg "All values must be numbers in the range -180.0 to 180.0"))) ∧
    (validateF (F.boundingBox false Value.none) (Value.str "1,2,3,4") =
       Except.ok (Value.tuple
         [Value.float 1, Value.float 2, Value.float 3, Value.float 4])) := by
  obtain ⟨h1, h2, h3, h4, h5, h6⟩ := C8_boundingBox false Value.none
  refine ⟨h3 [Value.int 1] (by simp), ?_, ?_, h1⟩
  · refine h4 _ (by simp) ?_
    have habc : pyFloat "abc" = Option.none := by decide
    simp [convertFloats, pyFloatConv, habc]
  · refine h6 _ [(181 : Rat), 0, 0, 0] (by simp) ?_ (by decide)
    norm_num [convertFloats, pyFloatConv]

/-- A reference list that passes the closure check has every reference
bound to a member of the model. -/
theorem checkRefListClosed_ok (ids : List Nat) :
    ∀ rs : List (String × Ref), checkRefListClosed ids rs = Except.ok () →
      ∀ p ∈ rs, ∃ i, p.2.entity = Option.some i ∧ i ∈ ids := by
  intro rs
  induction rs with
  | nil =>
    intro _ p hp
    simp at hp
  | cons q rest ih =>
    intro h p hp
    obtain ⟨n, r⟩ := q
    simp only [checkRefListClosed] at h
    split at h
    next i hre =>
      split at h
      next hm =>
        rcases List.mem_cons.mp hp with rfl | hp2
        · exact ⟨i, hre, hm⟩
        · exact ih h p hp2
      next hm => exact absurd h (by simp)
    next hre => exact absurd h (by simp)

/-- An entity set that passes the closure check has every reference of
every entity bound to a member of the model. -/
theorem checkClosure_ok (ids : List Nat) :
    ∀ es : List Ent, checkClosure ids es = Except.ok () →
      ∀ e ∈ es, ∀ p ∈ e.refs, ∃ i, p.2.entity = Option.some i ∧ i ∈ ids := by
  intro es
  induction es with
  | nil =>
    intro _ e he
    simp at he
  | cons e0 rest ih =>
    intro h e he p hp
    simp only [checkClosure] at h
    split at h
    next m hcl => exact absurd h (by simp)
    next u hcl =>
      rcases List.mem_cons.mp he with rfl | he2
      · exact checkRefListClosed_ok ids e.refs hcl p hp
      · exact ih h e he2 p hp

/-- Closure-check failures always carry the outside-the-model message. -/
theorem checkRefListClosed_err (ids : List Nat) :
    ∀ (rs : List (String × Ref)) (msg : String), checkRefListClosed ids rs = Except.error msg →
      ∃ nm, msg = "Attempting to reference to an entity \x27" ++ nm ++
        "\x27 that is outside the model" := by
  intro rs
  induction rs with
  | nil =>
    intro msg h
    simp [checkRefListClosed] at h
  | cons q rest ih =>
    intro msg h
    obtain ⟨n, r⟩ := q
    simp only [checkRefListClosed] at h
    split at h
    next i hre =>
      split at h
      next hm => exact ih msg h
      next hm =>
        refine ⟨r.entity_name, ?_⟩
        simpa using h.symm
    next hre =>
      refine ⟨r.entity_name, ?_⟩
      simpa using h.symm

/-- Whole-model closure failures always carry the outside-the-model
message. -/
theorem checkClosure_err (ids : List Nat) :
    ∀ (es : List Ent) (msg : String), checkClosure ids es = Except.error msg →
      ∃ nm, msg = "Attempting to reference to an entity \x27" ++ nm ++
        "\x27 that is outside the model" := by
  intro es
  induction es with
  | nil =>
    intro msg h
    simp [checkClosure] at h
  | cons e0 rest ih =>
    intro msg h
    simp only [checkClosure] at h
    split at h
    next m hcl =>
      have hm : m = msg := by simpa using h
      exact hm ▸ checkRefListClosed_err ids e0.refs m hcl
    next u hcl => exact ih msg h

/-- Resolution failures always carry the unresolvable-name message. -/
theorem resolveRef_err (lookup : String → Option Ent) (r : Ref) (msg : String)
    (h : resolveRef lookup r = Except.error msg) :
    msg = "Can\x27t resolve reference to entity \x27" ++ r.entity_name ++ "\x27" := by
  unfold resolveRef at h
  split at h
  · exact absurd h (by simp)
  · split at h
    · exact absurd h (by simp)
    · simpa using h.symm

/-- A reference that resolves successfully is not a dangling name. -/
theorem resolveRef_ok_no (lookup : String → Option Ent) (r r2 : Ref)
    (h : resolveRef lookup r = Except.ok r2) :
    ¬(r.entity = Option.none ∧ lookup r.entity_name = Option.none) := by
  intro hand
  obtain ⟨h1, h2⟩ := hand
  unfold resolveRef at h
  rw [h1] at h
  simp only [] at h
  rw [h2] at h
  simp at h

/-- Phase-1 failures over a reference list carry the unresolvable-name
message. -/
theorem resolveRefList_err (lookup : String → Option Ent) :
    ∀ (rs : List (String × Ref)) (msg : String),
      resolveRefList lookup rs = Except.error msg →
      ∃ nm, msg = "Can\x27t resolve reference to entity \x27" ++ nm ++ "\x27" := by
  intro rs
  induction rs with
  | nil =>
    intro msg h
    simp [resolveRefList] at h
  | cons q rest ih =>
    intro msg h
    obtain ⟨n, r⟩ := q
    simp only [resolveRefList] at h
    split at h
    next m hrr =>
      have hm : m = msg := by simpa using h
      exact ⟨r.entity_name, hm ▸ resolveRef_err lookup r m hrr⟩
    next r1 hrr =>
      split at h
      next m hrl =>
        have hm : m = msg := by simpa using h
        exact hm ▸ ih m hrl
      next rs1 hrl => exact absurd h (by simp)

/-- A reference list that resolves successfully has no dangling names. -/
theorem resolveRefList_ok_no (lookup : String → Option Ent) :
    ∀ (rs rs2 : List (String × Ref)),
      resolveRefList lookup rs = Except.ok rs2 →
      ∀ p ∈ rs, ¬(p.2.entity = Option.none ∧ lookup p.2.entity_name = Option.none) := by
  intro rs
  induction rs with
  | nil =>
    intro rs2 _ p hp
    simp at hp
  | cons q rest ih =>
    intro rs2 h p hp
    obtain ⟨n, r⟩ := q
    simp only [resolveRefList] at h
    split at h
    next m hrr => exact absurd h (by simp)
    next r1 hrr =>
      split at h
      next m hrl => exact absurd h (by simp)
      next rs1 hrl =>
        rcases List.mem_cons.mp hp with rfl | hp2
        · exact resolveRef_ok_no lookup r r1 hrr
        · exact ih rs1 hrl p hp2

/-- Phase-1 failures over the entity set carry the unresolvable-name
message. -/
theorem resolveEnts_err (lookup : String → Option Ent) :
    ∀ (es : List Ent) (msg : String), resolveEnts lookup es = Except.error msg →
      ∃ nm, msg = "Can\x27t resolve reference to entity \x27" ++ nm ++ "\x27" := by
  intro es
  induction es with
  | nil =>
    intro msg h
    simp [resolveEnts] at h
  | cons e0 rest ih =>
    intro msg h
    simp only [resolveEnts] at h
    split at h
    next m hrl =>
      have hm : m = msg := by simpa using h
      exact hm ▸ resolveRefList_err lookup e0.refs m hrl
    next rs1 hrl =>
      split at h
      next m hre =>
        have hm : m = msg := by simpa using h
        exact hm ▸ ih m hre
      next es1 hre => exact absurd h (by simp)

/-- An entity set that resolves successfully has no dangling names. -/
theorem resolveEnts_ok_no (lookup : String → Option Ent) :
    ∀ (es es2 : List Ent), resolveEnts lookup es = Except.ok es2 →
      ∀ e ∈ es, ∀ p ∈ e.refs,
        ¬(p.2.entity = Option.none ∧ lookup p.2.entity_name = Option.none) := by
  intro es
  induction es with
  | nil =>
    intro es2 _ e he
    simp at he
  | cons e0 rest ih =>
    intro es2 h e he p hp
    simp only [resolveEnts] at h
    split at h
    next m hrl => exact absurd h (by simp)
    next rs1 hrl =>
      split at h
      next m hre => exact absurd h (by simp)
      next es1 hre =>
        rcases List.mem_cons.mp he with rfl | he2
        · exact resolveRefList_ok_no lookup e.refs rs1 hrl p hp
        · exact ih es1 hre e he2 p hp

/-- C4: `Model` construction establishes the closed-world invariant — it
either fails (a pending name not in the name index aborts in the resolution
phase with a resolution error; a bound reference whose target is not a
member of the entity set aborts in the closure phase with a closure error),
or it succeeds and every reference of every entity in the constructed model
has a non-null `entity` slot referring to a member of the model's entity
set. -/
theorem C4_model_closed (nm : String) (es : List Ent) :
    (∀ m, modelInit nm es = Except.ok m →
      ∀ e ∈ m.entities, ∀ p ∈ e.refs,
        ∃ i, p.2.entity = Option.some i ∧ i ∈ m.entities.map Ent.id) ∧
    ((∃ e ∈ es, ∃ p ∈ e.refs,
        p.2.entity = Option.none ∧ entByName es p.2.entity_name = Option.none) →
      ∃ n, modelInit nm es =
        Except.error ("Can\x27t resolve reference to entity \x27" ++ n ++ "\x27")) ∧
    (∀ es2, resolveEnts (entByName es) es = Except.ok es2 →
      (∃ e ∈ es2, ∃ p ∈ e.refs, ∀ i, p.2.entity = Option.some i → i ∉ es2.map Ent.id) →
      ∃ n, modelInit nm es =
        Except.error ("Attempting to reference to an entity \x27" ++ n ++
          "\x27 that is outside the model")) := by
  refine ⟨?_, ?_, ?_⟩
  · intro m hm e he p hp
    unfold modelInit at hm
    split at hm
    next msg hres => exact absurd hm (by simp)
    next es2 hres =>
      split at hm
      next msg hcl => exact absurd hm (by simp)
      next u hcl =>
        cases u
        have hment : m.entities = es2 := by
          have := congrArg Model.entities ((Except.ok.injEq _ _).mp hm)
          simpa using this.symm
        rw [hment] at he ⊢
        exact checkClosure_ok (es2.map Ent.id) es2 hcl e he p hp
  · intro hbad
    cases hres : resolveEnts (entByName es) es with
    | error msg =>
      obtain ⟨n, rfl⟩ := resolveEnts_err (entByName es) es msg hres
      refine ⟨n, ?_⟩
      unfold modelInit
      rw [hres]
    | ok es2 =>
      exfalso
      obtain ⟨e, he, p, hp, hent, hlook⟩ := hbad
      exact resolveEnts_ok_no (entByName es) es es2 hres e he p hp ⟨hent, hlook⟩
  · intro es2 hres hbad
    cases hcl : checkClosure (es2.map Ent.id) es2 with
    | error msg =>
      obtain ⟨n, rfl⟩ := checkClosure_err (es2.map Ent.id) es2 msg hcl
      refine ⟨n, ?_⟩
      unfold modelInit
      rw [hres]
      simp only []
      rw [hcl]
    | ok u =>
      cases u
      exfalso
      obtain ⟨e, he, p, hp, hall⟩ := hbad
      obtain ⟨i, hi, him⟩ := checkClosure_ok (es2.map Ent.id) es2 hcl e he p hp
      exact hall i hi him

/-- C4 witness: `Model("blog", [Author, Post])`, where `Post` references
`Author` by forward name, constructs successfully and the bound reference
targets the member entity `Author` (identity 0). -/
theorem C4_witness :
    modelInit "blog" [demoAuthor, demoPost] =
      Except.ok { name := "blog", entities := [demoAuthor, demoResolvedPost] } ∧
    (0 : Nat) ∈ ([demoAuthor, demoResolvedPost].map Ent.id) ∧
    (Option.some 0 : Option Nat) ≠ Option.none := by
  have hini : modelInit "blog" [demoAuthor, demoPost] =
      Except.ok { name := "blog", entities := [demoAuthor, demoResolvedPost] } := by
    simp [modelInit, resolveEnts, resolveRefList, resolveRef, entByName, checkClosure,
      checkRefListClosed, demoAuthor, demoPost, demoResolvedPost]
  have h := (C4_model_closed "blog" [demoAuthor, demoPost]).1
    { name := "blog", entities := [demoAuthor, demoResolvedPost] } hini
    demoResolvedPost (by simp)
    ("author", { entity := Option.some 0, entity_name := "Author" })
    (by simp [demoResolvedPost])
  obtain ⟨i, hi, him⟩ := h
  have hi0 : i = 0 := by
    simpa using hi.symm
  subst hi0
  exact ⟨hini, him, by simp⟩
